import Mathlib

/-!
Verification of the browser dashboard's connection-lifecycle and
state-synchronization layer (MQTT service, MQTT/auth/S3 reducers, auth
service session handling, discovery cache), shallowly embedded from the
TypeScript sources.
-/

/-- Connection status of the MQTT service, from src/react-web/src/types
(values DISCONNECTED, CONNECTING, CONNECTED, RECONNECTING, ERROR). -/
inductive ConnectionStatus
  | disconnected
  | connecting
  | connected
  | reconnecting
  | error
deriving DecidableEq, Repr

/-- Mutable fields of MqttService (src/react-web/src/services/mqttService.ts,
lines 11-25) that the connection state machine reads and writes.  The
`client`/`connection` object references are abstracted to the boolean
`hasConnection`; `reconnectTimeout` holds the delay of the pending reconnect
timer (`none` when no timer is pending). -/
structure MqttServiceState where
  connectionStatus : ConnectionStatus
  reconnectAttempts : Nat
  reconnectTimeout : Option Nat
  isConnecting : Bool
  manualDisconnect : Bool
  hasConnection : Bool
  currentTopic : String
deriving DecidableEq, Repr

/-- `maxReconnectAttempts` field initializer (mqttService.ts line 20). -/
def maxReconnectAttempts : Nat := 3

/-- `reconnectDelay` field initializer in milliseconds (mqttService.ts line 21). -/
def reconnectDelay : Nat := 5000

/-- `MqttService.scheduleReconnect` (mqttService.ts lines 383-409): when the
attempt counter has reached `maxReconnectAttempts` it sets status `ERROR` and
returns (touching nothing else); otherwise it clears any pending timer,
increments the counter, computes the delay `reconnectDelay * 2 ^ (attempts - 1)`,
sets status `RECONNECTING` and stores the new timer. -/
def scheduleReconnect (s : MqttServiceState) : MqttServiceState :=
  if s.reconnectAttempts ≥ maxReconnectAttempts then
    { s with connectionStatus := ConnectionStatus.error }
  else
    let s1 := { s with reconnectTimeout := none }
    let attempts := s1.reconnectAttempts + 1
    let delay := reconnectDelay * 2 ^ (attempts - 1)
    { s1 with
        reconnectAttempts := attempts
        connectionStatus := ConnectionStatus.reconnecting
        reconnectTimeout := some delay }

/-- `MqttService.disconnect` (mqttService.ts lines 414-448): sets the manual
flag, cancels the pending reconnect timer, resets the attempt counter, then
best-effort unsubscribes and closes the transport (a throw from either call is
caught, leaving the connection reference in place), and finally sets status
`DISCONNECTED` unconditionally.  The booleans say whether the underlying
unsubscribe / close calls throw. -/
def disconnect (s : MqttServiceState)
    (unsubscribeThrows closeThrows : Bool) : MqttServiceState :=
  let s1 := { s with
      manualDisconnect := true
      reconnectTimeout := none
      reconnectAttempts := 0 }
  let s2 :=
    if s1.hasConnection then
      if s1.currentTopic ≠ "" ∧ unsubscribeThrows = true then s1
      else if closeThrows = true then s1
      else { s1 with hasConnection := false }
    else s1
  { s2 with connectionStatus := ConnectionStatus.disconnected }

/-- C3: reconnect scheduling uses exponential backoff with base delay 5000 ms
and multiplier 2 (the timer stored for attempt `n = reconnectAttempts + 1` is
`5000 * 2 ^ (n - 1)` ms), transitioning to `Reconnecting`; once the counter has
reached the cap of 3 the call transitions to `Error` and schedules nothing, so
when no timer was pending at that point none is pending afterwards and only an
explicit `connect` call can resume. -/
theorem scheduleReconnect_backoff_cap (s : MqttServiceState)
    (h : s.reconnectTimeout = none) :
    (s.reconnectAttempts < 3 →
      (scheduleReconnect s).reconnectTimeout
          = some (reconnectDelay * 2 ^ s.reconnectAttempts) ∧
      (scheduleReconnect s).reconnectAttempts = s.reconnectAttempts + 1 ∧
      (scheduleReconnect s).connectionStatus = ConnectionStatus.reconnecting) ∧
    (3 ≤ s.reconnectAttempts →
      (scheduleReconnect s).connectionStatus = ConnectionStatus.error ∧
      (scheduleReconnect s).reconnectTimeout = none) := by
  constructor
  · intro hlt
    have hneg : ¬ s.reconnectAttempts ≥ maxReconnectAttempts := by
      simp [maxReconnectAttempts]; omega
    simp [scheduleReconnect, hneg]
  · intro hge
    have hpos : s.reconnectAttempts ≥ maxReconnectAttempts := by
      simp [maxReconnectAttempts]; omega
    simp [scheduleReconnect, hpos, h]

/-- Witness for `scheduleReconnect_backoff_cap` at concrete states. -/
theorem scheduleReconnect_backoff_cap_witness :
    (scheduleReconnect
        { connectionStatus := ConnectionStatus.disconnected
          reconnectAttempts := 1
          reconnectTimeout := none
          isConnecting := false
          manualDisconnect := false
          hasConnection := true
          currentTopic := "dashboard/messages" }).reconnectTimeout
      = some 10000 ∧
    (scheduleReconnect
        { connectionStatus := ConnectionStatus.disconnected
          reconnectAttempts := 3
          reconnectTimeout := none
          isConnecting := false
          manualDisconnect := false
          hasConnection := true
          currentTopic := "dashboard/messages" }).connectionStatus
      = ConnectionStatus.error := by
  refine ⟨?_, ?_⟩
  · have h := (scheduleReconnect_backoff_cap
      { connectionStatus := ConnectionStatus.disconnected
        reconnectAttempts := 1
        reconnectTimeout := none
        isConnecting := false
        manualDisconnect := false
        hasConnection := true
        currentTopic := "dashboard/messages" } rfl).1 (by decide)
    simpa [reconnectDelay] using h.1
  · exact ((scheduleReconnect_backoff_cap
      { connectionStatus := ConnectionStatus.disconnected
        reconnectAttempts := 3
        reconnectTimeout := none
        isConnecting := false
        manualDisconnect := false
        hasConnection := true
        currentTopic := "dashboard/messages" } rfl).2 (by decide)).1

/-- C4: a manual `disconnect()` sets the manual-disconnect flag, cancels any
pending reconnect timer, and always ends with status `Disconnected`,
regardless of whether the underlying unsubscribe or transport close throws. -/
theorem disconnect_always_disconnected (s : MqttServiceState)
    (unsubscribeThrows closeThrows : Bool) :
    (disconnect s unsubscribeThrows closeThrows).connectionStatus
        = ConnectionStatus.disconnected ∧
    (disconnect s unsubscribeThrows closeThrows).manualDisconnect = true ∧
    (disconnect s unsubscribeThrows closeThrows).reconnectTimeout = none := by
  unfold disconnect
  refine ⟨rfl, ?_, ?_⟩ <;> dsimp only <;> split <;> (try split) <;>
    (try split) <;> rfl

/-- The three independent completion mechanisms of `MqttService.connect`
(mqttService.ts): the `connect` event handler (lines 141-151), the
connect-promise resolution handler (lines 211-234), and the 3-second watchdog
timeout (lines 237-250). -/
inductive ConnectMechanism
  | connectEvent
  | promiseResolved
  | watchdogTimeout
deriving DecidableEq, Repr

/-- Entry of `MqttService.connect` (mqttService.ts lines 66-136): returns the
state together with a flag saying whether a new transport connection object is
created.  A call while `isConnecting` is true, or while already `CONNECTED`,
returns immediately without opening a transport; otherwise the pending
reconnect timer is cleared, the guard flags are set, status becomes
`CONNECTING`, the topic is recorded and a fresh connection object is built. -/
def connectCall (s : MqttServiceState) (topic : String) :
    MqttServiceState × Bool :=
  if s.isConnecting then (s, false)
  else if s.connectionStatus = ConnectionStatus.connected then (s, false)
  else
    let s1 := { s with reconnectTimeout := none }
    let s2 := { s1 with isConnecting := true, manualDisconnect := false }
    let s3 := { s2 with
        connectionStatus := ConnectionStatus.connecting
        currentTopic := topic }
    ({ s3 with hasConnection := true }, true)

/-- Effect of one completion mechanism on the service state, together with the
number of `subscribeToTopic` calls it issues.  The `connect` event handler
(lines 141-151) marks the state connected and subscribes unconditionally; the
promise-resolution handler (lines 211-234) does so only when the status is not
already `CONNECTED`; the watchdog (lines 237-250) only when the status is
still `CONNECTING`. -/
def runConnectMechanism (s : MqttServiceState) (m : ConnectMechanism) :
    MqttServiceState × Nat :=
  match m with
  | ConnectMechanism.connectEvent =>
      ({ s with
          connectionStatus := ConnectionStatus.connected
          reconnectAttempts := 0
          isConnecting := false }, 1)
  | ConnectMechanism.promiseResolved =>
      if s.connectionStatus ≠ ConnectionStatus.connected then
        ({ s with
            connectionStatus := ConnectionStatus.connected
            reconnectAttempts := 0
            isConnecting := false }, 1)
      else (s, 0)
  | ConnectMechanism.watchdogTimeout =>
      if s.connectionStatus = ConnectionStatus.connecting then
        ({ s with
            connectionStatus := ConnectionStatus.connected
            reconnectAttempts := 0
            isConnecting := false }, 1)
      else (s, 0)

/-- Runs a firing order of completion mechanisms, summing the number of
subscribe calls issued. -/
def runConnectMechanisms :
    MqttServiceState → List ConnectMechanism → MqttServiceState × Nat
  | s, [] => (s, 0)
  | s, m :: ms =>
      let r := runConnectMechanism s m
      let rest := runConnectMechanisms r.1 ms
      (rest.1, r.2 + rest.2)

/-- Initial field values of a freshly constructed `MqttService`
(mqttService.ts lines 11-25). -/
def initialMqttServiceState : MqttServiceState :=
  { connectionStatus := ConnectionStatus.disconnected
    reconnectAttempts := 0
    reconnectTimeout := none
    isConnecting := false
    manualDisconnect := false
    hasConnection := true
    currentTopic := "" }

/-- Service state right after `connect` has initiated the transport connection
and registered its handlers (status `CONNECTING`, `isConnecting` set). -/
def connectingState : MqttServiceState :=
  (connectCall initialMqttServiceState "dashboard/messages").1

/-- Any mechanism firing while the status is `CONNECTING` issues exactly one
subscribe and marks the state `CONNECTED`. -/
theorem runConnectMechanism_connecting (s : MqttServiceState)
    (m : ConnectMechanism) (h : s.connectionStatus = ConnectionStatus.connecting) :
    (runConnectMechanism s m).2 = 1 ∧
    (runConnectMechanism s m).1.connectionStatus = ConnectionStatus.connected := by
  cases m <;> simp [runConnectMechanism, h]

/-- Once the state is `CONNECTED`, the state-guarded mechanisms (promise
resolution and watchdog) are no-ops issuing no subscribe. -/
theorem runConnectMechanisms_connected (s : MqttServiceState)
    (L : List ConnectMechanism)
    (h : s.connectionStatus = ConnectionStatus.connected)
    (hL : ConnectMechanism.connectEvent ∉ L) :
    runConnectMechanisms s L = (s, 0) := by
  induction L with
  | nil => rfl
  | cons m ms ih =>
      have hm : m ≠ ConnectMechanism.connectEvent := by
        intro hc
        exact hL (hc ▸ List.mem_cons_self m ms)
      have hms : ConnectMechanism.connectEvent ∉ ms := by
        intro hc
        exact hL (List.mem_cons_of_mem m hc)
      have hstep : runConnectMechanism s m = (s, 0) := by
        cases m with
        | connectEvent => exact absurd rfl hm
        | promiseResolved => simp [runConnectMechanism, h]
        | watchdogTimeout => simp [runConnectMechanism, h]
      simp [runConnectMechanisms, hstep, ih hms]

/-- C1 counterexample: from the connecting state, if the 3-second watchdog
fires first (status still `CONNECTING`) and the transport's `connect`
acknowledgement event arrives afterwards, the subscribe action is issued
twice, because the `connect` event handler subscribes without checking the
current status.  This refutes the claim that subscribe is issued exactly once
whenever more than one completion mechanism fires. -/
theorem connect_event_after_watchdog_duplicates_subscribe :
    (runConnectMechanisms connectingState
        [ConnectMechanism.watchdogTimeout, ConnectMechanism.connectEvent]).2 = 2 ∧
    (runConnectMechanisms connectingState
        [ConnectMechanism.watchdogTimeout, ConnectMechanism.connectEvent]).2 ≠ 1 := by
  refine ⟨rfl, by decide⟩

/-- C1 (amended): a `connect(topic)` call made while a previous call is still
in progress (`isConnecting` true) returns without opening a second transport
connection; and across the three completion mechanisms the subscribe action is
issued exactly once per successful connect provided the connect-acknowledgement
event fires first or does not fire at all — the promise-resolution and
watchdog paths are guarded on the current status, but a connect event arriving
after another mechanism has already marked the state `CONNECTED` issues a
second subscribe. -/
theorem connect_guard_and_single_subscribe :
    (∀ (s : MqttServiceState) (topic : String),
      s.isConnecting = true → connectCall s topic = (s, false)) ∧
    (∀ (s : MqttServiceState) (L : List ConnectMechanism),
      s.connectionStatus = ConnectionStatus.connecting →
      L ≠ [] → L.Nodup →
      (L.head? = some ConnectMechanism.connectEvent ∨
        ConnectMechanism.connectEvent ∉ L) →
      (runConnectMechanisms s L).2 = 1) := by
  constructor
  · intro s topic h
    simp [connectCall, h]
  · intro s L hs hne hnd hhead
    match L, hne with
    | m :: ms, _ =>
        have hstep := runConnectMechanism_connecting s m hs
        have hrest :
            runConnectMechanisms (runConnectMechanism s m).1 ms
              = ((runConnectMechanism s m).1, 0) := by
          apply runConnectMechanisms_connected _ _ hstep.2
        
          rcases hhead with hfirst | habs
          · have hm : m = ConnectMechanism.connectEvent := by
              simpa using hfirst
            subst hm
            exact (List.nodup_cons.mp hnd).1
          · intro hc
            exact habs (List.mem_cons_of_mem m hc)
        simp [runConnectMechanisms, hrest, hstep.1]

/-- Witness for `connect_guard_and_single_subscribe` at concrete inputs: a
second `connect` while connecting is a no-op opening no transport, and the
firing orders event-then-promise-then-watchdog and promise-then-watchdog each
issue exactly one subscribe. -/
theorem connect_guard_and_single_subscribe_witness :
    connectCall connectingState "dashboard/messages" = (connectingState, false) ∧
    (runConnectMechanisms connectingState
        [ConnectMechanism.connectEvent, ConnectMechanism.promiseResolved,
          ConnectMechanism.watchdogTimeout]).2 = 1 ∧
    (runConnectMechanisms connectingState
        [ConnectMechanism.promiseResolved,
          ConnectMechanism.watchdogTimeout]).2 = 1 := by
  refine ⟨?_, ?_, ?_⟩
  · exact connect_guard_and_single_subscribe.1 connectingState
      "dashboard/messages" rfl
  · exact connect_guard_and_single_subscribe.2 connectingState
      [ConnectMechanism.connectEvent, ConnectMechanism.promiseResolved,
        ConnectMechanism.watchdogTimeout] rfl (by decide) (by decide)
      (Or.inl rfl)
  · exact connect_guard_and_single_subscribe.2 connectingState
      [ConnectMechanism.promiseResolved, ConnectMechanism.watchdogTimeout]
      rfl (by decide) (by decide) (Or.inr (by decide))

/-- What the disconnect event handler does about reconnecting: nothing, a
2000 ms delayed grace call, or an immediate `scheduleReconnect`. -/
inductive ReconnectAction
  | noAction
  | delayedGrace (ms : Nat)
  | immediate
deriving DecidableEq, Repr

/-- The `disconnect` event handler registered by `MqttService.connect`
(mqttService.ts lines 163-192): clears `isConnecting`; if the disconnect was
not manual it sets status `DISCONNECTED` and, when the reconnect-attempt
counter is zero (first unexpected drop), arms a fixed 2000 ms grace timer
before scheduling, otherwise calls `scheduleReconnect` immediately. -/
def onDisconnectEvent (s : MqttServiceState) :
    MqttServiceState × ReconnectAction :=
  let s1 := { s with isConnecting := false }
  if s1.manualDisconnect then (s1, ReconnectAction.noAction)
  else
    let s2 := { s1 with connectionStatus := ConnectionStatus.disconnected }
    if s2.reconnectAttempts = 0 then (s2, ReconnectAction.delayedGrace 2000)
    else (s2, ReconnectAction.immediate)

/-- Body of the 2000 ms grace timer (mqttService.ts lines 180-187): it calls
`scheduleReconnect` only when no manual disconnect has happened and the status
is still `DISCONNECTED`; the boolean reports whether `scheduleReconnect` was
invoked. -/
def graceCallback (s : MqttServiceState) : MqttServiceState × Bool :=
  if s.manualDisconnect = false ∧
      s.connectionStatus = ConnectionStatus.disconnected then
    (scheduleReconnect s, true)
  else (s, false)

/-- C8: on the first unexpected (non-manual) drop (attempt counter zero) the
handler arms a fixed 2-second grace timer instead of scheduling at once; the
delayed scheduling is skipped when a manual disconnect happened or the status
left `Disconnected` in the interim; every subsequent unexpected drop calls
`scheduleReconnect` immediately. -/
theorem first_drop_grace_then_immediate (s : MqttServiceState)
    (h : s.manualDisconnect = false) :
    (s.reconnectAttempts = 0 →
      (onDisconnectEvent s).2 = ReconnectAction.delayedGrace 2000 ∧
      (onDisconnectEvent s).1.connectionStatus = ConnectionStatus.disconnected) ∧
    (s.reconnectAttempts ≠ 0 →
      (onDisconnectEvent s).2 = ReconnectAction.immediate) ∧
    (∀ t : MqttServiceState,
      t.manualDisconnect = true ∨
        t.connectionStatus ≠ ConnectionStatus.disconnected →
      graceCallback t = (t, false)) ∧
    (∀ t : MqttServiceState,
      t.manualDisconnect = false →
      t.connectionStatus = ConnectionStatus.disconnected →
      graceCallback t = (scheduleReconnect t, true)) := by
  refine ⟨?_, ?_, ?_, ?_⟩
  · intro h0
    simp [onDisconnectEvent, h, h0]
  · intro h0
    simp [onDisconnectEvent, h, h0]
  · intro t ht
    rcases ht with ht | ht <;> simp [graceCallback, ht]
  · intro t ht1 ht2
    simp [graceCallback, ht1, ht2]

/-- Witness for `first_drop_grace_then_immediate` at concrete states. -/
theorem first_drop_grace_then_immediate_witness :
    (onDisconnectEvent
        { initialMqttServiceState with
            connectionStatus := ConnectionStatus.connected }).2
      = ReconnectAction.delayedGrace 2000 ∧
    (onDisconnectEvent
        { initialMqttServiceState with
            connectionStatus := ConnectionStatus.disconnected
            reconnectAttempts := 1 }).2
      = ReconnectAction.immediate ∧
    graceCallback
        { initialMqttServiceState with manualDisconnect := true }
      = ({ initialMqttServiceState with manualDisconnect := true }, false) := by
  refine ⟨?_, ?_, ?_⟩
  · exact ((first_drop_grace_then_immediate
      { initialMqttServiceState with
          connectionStatus := ConnectionStatus.connected } rfl).1 rfl).1
  · exact (first_drop_grace_then_immediate
      { initialMqttServiceState with
          connectionStatus := ConnectionStatus.disconnected
          reconnectAttempts := 1 } rfl).2.1 (by decide)
  · exact (first_drop_grace_then_immediate
      initialMqttServiceState rfl).2.2.1
      { initialMqttServiceState with manualDisconnect := true }
      (Or.inl rfl)

/-- One received publish event (src/react-web/src/types/mqtt `MqttMessage`):
topic name, decoded text payload, receipt instant (modelled as a natural
number), and quality-of-service indicator. -/
structure MqttMessage where
  topic : String
  payload : String
  timestamp : Nat
  qos : Nat
deriving DecidableEq, Repr

/-- The MQTT context state (src/unnamed `MqttState`, used by the reducer in
the MQTT context file, lines 42-49). -/
structure MqttState where
  connected : Bool
  messages : List MqttMessage
  error : Option String
  connectionStatus : ConnectionStatus
  lastMessage : Option MqttMessage
  messageCount : Nat
deriving DecidableEq, Repr

/-- Actions of the MQTT context reducer (MQTT context file, lines 18-27). -/
inductive MqttAction
  | setConnecting
  | setConnected
  | setDisconnected
  | setReconnecting
  | setError (payload : String)
  | addMessage (payload : MqttMessage)
  | clearMessages
  | setStatus (payload : ConnectionStatus)
  | resetState
deriving DecidableEq, Repr

/-- `initialState` of the MQTT context (MQTT context file, lines 42-49). -/
def initialMqttState : MqttState :=
  { connected := false
    messages := []
    error := none
    connectionStatus := ConnectionStatus.disconnected
    lastMessage := none
    messageCount := 0 }

/-- `mqttReducer` (MQTT context file, lines 52-113).  `ADD_MESSAGE` prepends
the new message and keeps the first 100 entries; `SET_ERROR` stores the
payload string, forces status `ERROR` and `connected := false`; `SET_STATUS`
recomputes `connected` from the payload. -/
def mqttReducer (state : MqttState) (action : MqttAction) : MqttState :=
  match action with
  | MqttAction.setConnecting =>
      { state with
          connected := false
          connectionStatus := ConnectionStatus.connecting
          error := none }
  | MqttAction.setConnected =>
      { state with
          connected := true
          connectionStatus := ConnectionStatus.connected
          error := none }
  | MqttAction.setDisconnected =>
      { state with
          connected := false
          connectionStatus := ConnectionStatus.disconnected }
  | MqttAction.setReconnecting =>
      { state with
          connected := false
          connectionStatus := ConnectionStatus.reconnecting
          error := none }
  | MqttAction.setError payload =>
      { state with
          connected := false
          connectionStatus := ConnectionStatus.error
          error := some payload }
  | MqttAction.addMessage payload =>
      { state with
          messages := (payload :: state.messages).take 100
          lastMessage := some payload
          messageCount := state.messageCount + 1 }
  | MqttAction.clearMessages =>
      { state with
          messages := []
          lastMessage := none
          messageCount := 0 }
  | MqttAction.setStatus payload =>
      { state with
          connectionStatus := payload
          connected := decide (payload = ConnectionStatus.connected) }
  | MqttAction.resetState => initialMqttState

/-- `MqttProvider.clearError` (MQTT context file, lines 229-231): dispatches
`SET_ERROR` with the empty string. -/
def clearErrorDispatch (s : MqttState) : MqttState :=
  mqttReducer s (MqttAction.setError "")

/-- C5: the message sequence never exceeds 100 entries (preserved by every
action), insertion places the new message first (most-recent-first order) and
increments the message count by exactly one regardless of eviction, and
inserting into a full sequence of 100 evicts exactly the earliest-inserted
message (the last element, index 100 after prepending). -/
theorem mqtt_messages_bounded_and_evict :
    (∀ (s : MqttState) (a : MqttAction), s.messages.length ≤ 100 →
      (mqttReducer s a).messages.length ≤ 100) ∧
    (∀ (s : MqttState) (m : MqttMessage),
      (mqttReducer s (MqttAction.addMessage m)).messages.head? = some m ∧
      (mqttReducer s (MqttAction.addMessage m)).messageCount
        = s.messageCount + 1) ∧
    (∀ (s : MqttState) (m : MqttMessage), s.messages.length = 100 →
      (mqttReducer s (MqttAction.addMessage m)).messages
        = m :: s.messages.dropLast) := by
  refine ⟨?_, ?_, ?_⟩
  · intro s a hlen
    cases a <;> simp [mqttReducer, initialMqttState] <;> omega
  · intro s m
    constructor
    · show ((m :: s.messages).take 100).head? = some m
      rw [show (100 : Nat) = 99 + 1 from rfl, List.take_succ_cons]
      rfl
    · rfl
  · intro s m hlen
    show (m :: s.messages).take 100 = m :: s.messages.dropLast
    rw [show (100 : Nat) = 99 + 1 from rfl, List.take_succ_cons,
      List.dropLast_eq_take, hlen]

/-- Witness for `mqtt_messages_bounded_and_evict` at concrete inputs. -/
theorem mqtt_messages_bounded_and_evict_witness :
    (mqttReducer initialMqttState MqttAction.clearMessages).messages.length
      ≤ 100 ∧
    (mqttReducer
        { initialMqttState with
            messages := List.replicate 100
              { topic := "dashboard/messages", payload := "old",
                timestamp := 0, qos := 1 } }
        (MqttAction.addMessage
          { topic := "dashboard/messages", payload := "new",
            timestamp := 1, qos := 1 })).messages
      = { topic := "dashboard/messages", payload := "new",
          timestamp := 1, qos := 1 }
        :: List.replicate 99
          { topic := "dashboard/messages", payload := "old",
            timestamp := 0, qos := 1 } := by
  constructor
  · exact mqtt_messages_bounded_and_evict.1 initialMqttState
      MqttAction.clearMessages (by decide)
  · have h := mqtt_messages_bounded_and_evict.2.2
      { initialMqttState with
          messages := List.replicate 100
            { topic := "dashboard/messages", payload := "old",
              timestamp := 0, qos := 1 } }
      { topic := "dashboard/messages", payload := "new",
        timestamp := 1, qos := 1 }
      (by simp)
    simpa using h

/-- C10: dispatching the error-clearing action (which sends `SET_ERROR` with
the empty string) always yields a state with status `Error`,
`connected = false`, and `error` equal to the empty string (not null) — in
particular, clearing the error while connected marks the state as `Error` and
not connected. -/
theorem clearError_forces_error_status (s : MqttState) :
    (clearErrorDispatch s).connectionStatus = ConnectionStatus.error ∧
    (clearErrorDispatch s).connected = false ∧
    (clearErrorDispatch s).error = some "" :=
  ⟨rfl, rfl, rfl⟩

/-- Authenticated principal (authService.ts `CognitoUser`): username, optional
email, and an attribute map (modelled as an association list). -/
structure CognitoUser where
  username : String
  email : Option String
  attributes : List (String × String)
deriving DecidableEq, Repr

/-- UI-facing auth error (src/react-web/src/types/auth `AuthError`): a short
machine-readable code and a human-readable message; the optional wrapped
original Error object is dropped from the model. -/
structure AuthError where
  code : String
  message : String
deriving DecidableEq, Repr

/-- Auth lifecycle states (authService.ts `AuthState` enum). -/
inductive AuthStateKind
  | loading
  | authenticated
  | unauthenticated
  | challengeRequired
deriving DecidableEq, Repr

/-- State held by the auth context reducer (auth context file, lines 37-42). -/
structure AuthStateType where
  authState : AuthStateKind
  user : Option CognitoUser
  error : Option AuthError
  challengeSession : Option String
deriving DecidableEq, Repr

/-- Actions of the auth context reducer (auth context file, lines 25-34). -/
inductive AuthAction
  | setLoading
  | setAuthenticated (payload : CognitoUser)
  | setUnauthenticated
  | setChallengeRequired (user : CognitoUser) (session : String)
  | setError (payload : AuthError)
  | clearError
deriving DecidableEq, Repr

/-- `initialState` of the auth context (auth context file, lines 45-50). -/
def initialAuthState : AuthStateType :=
  { authState := AuthStateKind.loading
    user := none
    error := none
    challengeSession := none }

/-- `authReducer` (auth context file, lines 53-108).  Note that
`SET_UNAUTHENTICATED` resets `error` to null, and `SET_ERROR` maps a `LOADING`
state to `UNAUTHENTICATED` while keeping any other state. -/
def authReducer (state : AuthStateType) (action : AuthAction) : AuthStateType :=
  match action with
  | AuthAction.setLoading =>
      { state with authState := AuthStateKind.loading, error := none }
  | AuthAction.setAuthenticated payload =>
      { state with
          authState := AuthStateKind.authenticated
          user := some payload
          error := none
          challengeSession := none }
  | AuthAction.setUnauthenticated =>
      { state with
          authState := AuthStateKind.unauthenticated
          user := none
          error := none
          challengeSession := none }
  | AuthAction.setChallengeRequired user session =>
      { state with
          authState := AuthStateKind.challengeRequired
          user := some user
          challengeSession := some session
          error := none }
  | AuthAction.setError payload =>
      { state with
          error := some payload
          authState :=
            if state.authState = AuthStateKind.loading then
              AuthStateKind.unauthenticated
            else state.authState }
  | AuthAction.clearError =>
      { state with error := none }

/-- Dispatch sequence performed by `AuthProvider.signIn` (auth context file,
lines 169-206) when `authService.signIn` rejects: `SET_LOADING`,
`CLEAR_ERROR`, then in the catch block `SET_ERROR` with the mapped auth error
followed by `SET_UNAUTHENTICATED`. -/
def signInFailure (s : AuthStateType) (e : AuthError) : AuthStateType :=
  authReducer
    (authReducer
      (authReducer (authReducer s AuthAction.setLoading) AuthAction.clearError)
      (AuthAction.setError e))
    AuthAction.setUnauthenticated

/-- The auth error built by `AuthProvider.signIn` for a rejection whose
message comes from `AuthService.signIn` mapping `NotAuthorizedException`
(authService.ts lines 668-687). -/
def invalidCredentialsError : AuthError :=
  { code := "SIGN_IN_ERROR", message := "Invalid username or password" }

/-- C2 (code evaluation at the failing input): a failed sign-in from the
initial state ends `Unauthenticated` and never in `Loading`, but the trailing
`SET_UNAUTHENTICATED` dispatch resets `error` to null, so the written error
value is not observable — contradicting the claim that a non-null `AuthFailed`
error remains for the UI.  The intermediate state right after `SET_ERROR`
briefly holds the error, confirming the wipe comes from the final dispatch. -/
theorem signIn_failure_ends_unauthenticated_with_null_error :
    (signInFailure initialAuthState invalidCredentialsError).authState
        = AuthStateKind.unauthenticated ∧
    (signInFailure initialAuthState invalidCredentialsError).error = none ∧
    (authReducer
        (authReducer (authReducer initialAuthState AuthAction.setLoading)
          AuthAction.clearError)
        (AuthAction.setError invalidCredentialsError)).error
      = some invalidCredentialsError :=
  ⟨rfl, rfl, rfl⟩

/-- Stored Cognito session (authService.ts `AuthSession`): tokens, owning
user, and absolute expiry instant in epoch milliseconds. -/
structure AuthSession where
  accessToken : String
  idToken : String
  refreshToken : String
  user : CognitoUser
  expiresAt : Nat
deriving DecidableEq, Repr

/-- Mutable state of `AuthService` relevant to session handling
(authService.ts lines 389-401): the in-memory `currentSession`, the durable
localStorage entry under `SESSION_KEY`, and whether a refresh timer is
pending. -/
structure AuthServiceState where
  currentSession : Option AuthSession
  storedSession : Option AuthSession
  refreshTimer : Bool
deriving DecidableEq, Repr

/-- `AuthService.clearStoredSession` (authService.ts lines 447-454): removes
the localStorage entry, nulls the in-memory session and cancels the refresh
timer. -/
def clearStoredSession (s : AuthServiceState) : AuthServiceState :=
  { s with
      storedSession := none
      currentSession := none
      refreshTimer := false }

/-- `AuthService.getCurrentUser` (authService.ts lines 800-813): with no
current session returns null; with a session whose expiry has been reached
(`Date.now() >= expiresAt`) clears the stored session and returns null;
otherwise returns the session's user.  Returns the result together with the
service state after the call. -/
def getCurrentUser (s : AuthServiceState) (now : Nat) :
    Option CognitoUser × AuthServiceState :=
  match s.currentSession with
  | none => (none, s)
  | some sess =>
      if now ≥ sess.expiresAt then (none, clearStoredSession s)
      else (some sess.user, s)

/-- C6: for every session whose expiry instant is less than or equal to the
current time, `getCurrentUser` returns null (never the expired session) and,
as a side effect, the session is cleared from memory and from durable
storage. -/
theorem getCurrentUser_expired_clears_session (s : AuthServiceState)
    (sess : AuthSession) (now : Nat)
    (hcur : s.currentSession = some sess) (hexp : sess.expiresAt ≤ now) :
    (getCurrentUser s now).1 = none ∧
    (getCurrentUser s now).2.currentSession = none ∧
    (getCurrentUser s now).2.storedSession = none := by
  have hge : now ≥ sess.expiresAt := hexp
  simp [getCurrentUser, hcur, hge, clearStoredSession]

/-- Witness for `getCurrentUser_expired_clears_session` at a concrete expired
session. -/
theorem getCurrentUser_expired_clears_session_witness :
    (getCurrentUser
        { currentSession := some
            { accessToken := "a", idToken := "i", refreshToken := "r",
              user := { username := "alice", email := none, attributes := [] },
              expiresAt := 1000 }
          storedSession := some
            { accessToken := "a", idToken := "i", refreshToken := "r",
              user := { username := "alice", email := none, attributes := [] },
              expiresAt := 1000 }
          refreshTimer := true } 1000).1 = none := by
  exact (getCurrentUser_expired_clears_session
    { currentSession := some
        { accessToken := "a", idToken := "i", refreshToken := "r",
          user := { username := "alice", email := none, attributes := [] },
          expiresAt := 1000 }
      storedSession := some
        { accessToken := "a", idToken := "i", refreshToken := "r",
          user := { username := "alice", email := none, attributes := [] },
          expiresAt := 1000 }
      refreshTimer := true }
    { accessToken := "a", idToken := "i", refreshToken := "r",
      user := { username := "alice", email := none, attributes := [] },
      expiresAt := 1000 } 1000 rfl (by decide)).1

/-- One S3 object record (src/react-web/src/types/s3 `S3Object`):
key, last-modified instant, byte size, signed URL and optional entity tag. -/
structure S3Object where
  key : String
  lastModified : Nat
  size : Nat
  url : String
  etag : Option String
deriving DecidableEq, Repr

/-- State held by the S3 context reducer (S3 context file, lines 115-126). -/
structure S3State where
  images : List S3Object
  loading : Bool
  error : Option String
  lastUpdated : Option Nat
  selectedBucket : Option String
  availableBuckets : List String
  hasMore : Bool
  refreshing : Bool
  lastRefreshTime : Option Nat
  lastImageEtag : Option String
deriving DecidableEq, Repr

/-- Actions of the S3 context reducer (S3 context file, lines 129-137).
`UPDATE_LAST_UPDATED` is parameterised by the current instant standing for
`new Date()`. -/
inductive S3Action
  | setLoading (payload : Bool)
  | setRefreshing (payload : Bool)
  | setError (payload : Option String)
  | setImages (images : List S3Object) (hasMore : Bool)
  | setBuckets (payload : List String)
  | setSelectedBucket (payload : Option String)
  | updateLastUpdated (now : Nat)
  | resetState
deriving DecidableEq, Repr

/-- `initialState` of the S3 context (S3 context file, lines 152-163). -/
def initialS3State : S3State :=
  { images := []
    loading := false
    error := none
    lastUpdated := none
    selectedBucket := none
    availableBuckets := []
    hasMore := false
    refreshing := false
    lastRefreshTime := none
    lastImageEtag := none }

/-- `s3Reducer` (S3 context file, lines 166-200).  Note that
`UPDATE_LAST_UPDATED` writes the `lastUpdated` field only; no case of the
reducer ever writes `lastRefreshTime` (besides `RESET_STATE` restoring the
null initial value). -/
def s3Reducer (state : S3State) (action : S3Action) : S3State :=
  match action with
  | S3Action.setLoading payload => { state with loading := payload }
  | S3Action.setRefreshing payload => { state with refreshing := payload }
  | S3Action.setError payload =>
      { state with error := payload, loading := false, refreshing := false }
  | S3Action.setImages images hasMore =>
      { state with
          images := images
          hasMore := hasMore
          loading := false
          refreshing := false
          error := none
          lastImageEtag := images.head?.bind S3Object.etag }
  | S3Action.setBuckets payload => { state with availableBuckets := payload }
  | S3Action.setSelectedBucket payload =>
      { state with selectedBucket := payload }
  | S3Action.updateLastUpdated now => { state with lastUpdated := some now }
  | S3Action.resetState => initialS3State

/-- `S3Provider.refreshImages` (S3 context file, lines 303-321): if
`lastRefreshTime` is set and fewer than 5000 ms have elapsed it returns
immediately (no fetch); otherwise it dispatches `UPDATE_LAST_UPDATED` and
proceeds to `loadImages`.  The boolean reports whether the fetch proceeds. -/
def refreshImages (s : S3State) (now : Nat) : S3State × Bool :=
  match s.lastRefreshTime with
  | some t =>
      if now - t < 5000 then (s, false)
      else (s3Reducer s (S3Action.updateLastUpdated now), true)
  | none => (s3Reducer s (S3Action.updateLastUpdated now), true)

/-- The dispatch sequence of a completed refresh load
(`loadImages(undefined, false)`, S3 context file lines 243-296):
`SET_REFRESHING true`, `SET_ERROR null`, `SET_IMAGES`, then
`UPDATE_LAST_UPDATED` at instant `t`. -/
def completedRefresh (s : S3State) (imgs : List S3Object) (hasMore : Bool)
    (t : Nat) : S3State :=
  s3Reducer
    (s3Reducer
      (s3Reducer (s3Reducer s (S3Action.setRefreshing true))
        (S3Action.setError none))
      (S3Action.setImages imgs hasMore))
    (S3Action.updateLastUpdated t)

/-- C7 (code evaluation at the failing input): after a completed refresh at
instant 0, the state's `lastRefreshTime` is still null (the completed load
only dispatched `UPDATE_LAST_UPDATED`, which writes `lastUpdated`), so a
manual `refreshImages` 2000 ms later is not throttled and proceeds to issue a
new fetch — contradicting the claim of a silent rejection within 5 seconds. -/
theorem refresh_throttle_never_fires :
    (completedRefresh initialS3State [] false 0).lastRefreshTime = none ∧
    (completedRefresh initialS3State [] false 0).lastUpdated = some 0 ∧
    (refreshImages (completedRefresh initialS3State [] false 0) 2000).2
      = true :=
  ⟨rfl, rfl, rfl⟩

/-- Discovery cache record (discoveryService.ts `DiscoveryCache`): optional
endpoint and buckets list, capture timestamp and absolute expiry in epoch
milliseconds. -/
structure DiscoveryCache where
  iotEndpoint : Option String
  s3Buckets : Option (List String)
  timestamp : Nat
  expiresAt : Nat
deriving DecidableEq, Repr

/-- `CACHE_DURATION` (discoveryService.ts line 24): one hour in
milliseconds. -/
def CACHE_DURATION : Nat := 1000 * 60 * 60

/-- `DiscoveryService.setCachedResults` (discoveryService.ts lines 82-96):
builds a record with the current instant as timestamp, expiry
`timestamp + CACHE_DURATION`, and the supplied endpoint and buckets, and
stores it under the cache key (overwriting any previous entry). -/
def setCachedResults (endpoint : Option String) (buckets : Option (List String))
    (now : Nat) : Option DiscoveryCache :=
  some
    { iotEndpoint := endpoint
      s3Buckets := buckets
      timestamp := now
      expiresAt := now + CACHE_DURATION }

/-- `DiscoveryService.getCachedResults` (discoveryService.ts lines 57-77):
returns null when nothing is stored; removes the entry and returns null when
`now > expiresAt`; otherwise returns the parsed record.  Returns the result
together with the storage contents after the call. -/
def getCachedResults (store : Option DiscoveryCache) (now : Nat) :
    Option DiscoveryCache × Option DiscoveryCache :=
  match store with
  | none => (none, none)
  | some c =>
      if now > c.expiresAt then (none, none)
      else (some c, some c)

/-- C9: writing discovery results and immediately reading them back
round-trips: the returned record carries the stored endpoint and buckets list
and satisfies `expiresAt - timestamp = 3600000` (the 1-hour TTL). -/
theorem discovery_cache_roundtrip (e : String) (bs : List String) (now : Nat) :
    (getCachedResults (setCachedResults (some e) (some bs) now) now).1
      = some
        { iotEndpoint := some e
          s3Buckets := some bs
          timestamp := now
          expiresAt := now + CACHE_DURATION } ∧
    (now + CACHE_DURATION) - now = 3600000 := by
  constructor
  · have h : ¬ now > now + CACHE_DURATION := by omega
    simp [getCachedResults, setCachedResults, h]
  · simp [CACHE_DURATION]
